import Mathlib

/-!
Verification of the Supabase project generator (`supabase_setup.py`).

This file gives a shallow embedding of the parts of the generator that the
specification talks about: the port allocator, the line-ending normalizing
writer, the env-file renderer and its read-back extraction routine, the
vector-config fallback chain, and the directory/file materialization
performed by `run`.  All definitions are translated from the source; the
theorems at the end of the file settle the specification claims.
-/

namespace SupabaseSetup

/-! ## Port allocator (`_find_available_port`, `_calculate_ports`)

The probe environment is modelled as a pure function `avail : Nat → Bool`
(the result of `_is_port_available` for each port at probe time).  The
Python loop

    port = start_port
    while not self._is_port_available(port):
        port += step
    return port

has no iteration bound, so it is embedded fuel-indexed: `none` means the
loop has not terminated within `fuel` probes.  Termination of the Python
loop is exactly `∃ fuel, (findAvailablePort … fuel).isSome`.
-/

/-- Embedding of `_find_available_port(start_port, step=1)`: linear probing
upward from `port`, consuming one unit of fuel per probe. -/
def findAvailablePort (avail : Nat → Bool) (step : Nat) : Nat → Nat → Option Nat
  | _, 0 => none
  | port, fuel + 1 =>
    if avail port then some port else findAvailablePort avail step (port + step) fuel

/-- The Python probe loop terminates on environment `avail` when started at
`start` with step `step`. -/
def findTerminates (avail : Nat → Bool) (step start : Nat) : Prop :=
  ∃ fuel p, findAvailablePort avail step start fuel = some p

/-- The six logical service ports returned by `_calculate_ports`. -/
structure Ports where
  kong_http : Nat
  kong_https : Nat
  postgres : Nat
  pooler : Nat
  studio : Nat
  analytics : Nat
deriving DecidableEq, Repr

/-- Embedding of the port-derivation part of `_calculate_ports` for an
explicit base port: each of the six targets is resolved independently by
`_find_available_port` at its fixed offset from the base.  All searches
share the fuel bound; `none` means some search did not terminate within
`fuel` probes. -/
def calculatePorts (avail : Nat → Bool) (basePort fuel : Nat) : Option Ports := do
  let kongHttp ← findAvailablePort avail 1 basePort fuel
  let kongHttps ← findAvailablePort avail 1 (basePort + 443) fuel
  let postgres ← findAvailablePort avail 1 (basePort + 1000) fuel
  let pooler ← findAvailablePort avail 1 (basePort + 1001) fuel
  let studio ← findAvailablePort avail 1 (basePort + 2000) fuel
  let analytics ← findAvailablePort avail 1 (basePort + 3000) fuel
  some ⟨kongHttp, kongHttps, postgres, pooler, studio, analytics⟩

/-- The six ports as a list, in the order they are assigned. -/
def portsList (p : Ports) : List Nat :=
  [p.kong_http, p.kong_https, p.postgres, p.pooler, p.studio, p.analytics]

/-- The spec's distinctness property `len(set(ports.values())) == 6`. -/
def PortsDistinct (p : Ports) : Prop := (portsList p).Nodup

instance (p : Ports) : Decidable (PortsDistinct p) := by
  unfold PortsDistinct; infer_instance

/-- Probe environment in which only port 5000 is occupied. -/
def envBusy5000 : Nat → Bool := fun p => decide (p ≠ 5000)

/-- Probe environment in which exactly the ports in `[4000, 7500)` are free. -/
def envFree4000to7500 : Nat → Bool := fun p => decide (4000 ≤ p ∧ p < 7500)

/-! ## String primitives used by the generator

The generator manipulates text with Python string methods: `replace`,
`splitlines`, `split("=", 1)`, `strip`, `startswith` and the `in`
(substring) test.  They are embedded here over `List Char`. -/

/-- The characters Python's `str.strip()` removes (the `str.isspace`
character class). -/
def isPyWhitespace (c : Char) : Bool :=
  c = ' ' || c = '\t' || c = '\n' || c = '\r' || c = '\x0b' || c = '\x0c' ||
  c = '\x1c' || c = '\x1d' || c = '\x1e' || c = '\x1f' || c = '\x85' || c = '\xa0' ||
  c = '\u1680' || ('\u2000' ≤ c && c ≤ '\u200a') || c = '\u2028' || c = '\u2029' ||
  c = '\u202f' || c = '\u205f' || c = '\u3000'

/-- The line terminators Python's `str.splitlines()` splits at. -/
def isPyLineBreak (c : Char) : Bool :=
  c = '\n' || c = '\r' || c = '\x0b' || c = '\x0c' ||
  c = '\x1c' || c = '\x1d' || c = '\x1e' || c = '\x85' || c = '\u2028' || c = '\u2029'
/-- Embedding of Python `str.strip()`: remove leading and trailing
whitespace characters. -/
def pyStripL (l : List Char) : List Char :=
  ((l.dropWhile isPyWhitespace).reverse.dropWhile isPyWhitespace).reverse

/-- Worker for `str.splitlines()`: `acc` holds the (reversed) characters of
the current line; `\r\n` counts as a single terminator; a trailing
terminator does not produce a final empty line. -/
def pySplitlinesAux : List Char → List Char → List (List Char)
  | [], acc => if acc.isEmpty then [] else [acc.reverse]
  | '\r' :: '\n' :: cs, acc => acc.reverse :: pySplitlinesAux cs []
  | c :: cs, acc =>
    if isPyLineBreak c then acc.reverse :: pySplitlinesAux cs []
    else pySplitlinesAux cs (c :: acc)

/-- Embedding of Python `str.splitlines()`. -/
def pySplitlines (s : String) : List String :=
  (pySplitlinesAux s.data []).map String.mk

/-- Embedding of Python `str.startswith(pat)`. -/
def pyStartsWith : List Char → List Char → Bool
  | [], _ => true
  | _ :: _, [] => false
  | p :: ps, c :: cs => p = c && pyStartsWith ps cs

/-- Embedding of Python `s.split(sep, 1)` restricted to the case where the
separator occurs: returns the parts before and after the first occurrence
of `sep`, or `none` when `sep` does not occur. -/
def pySplitFirst (sep : Char) : List Char → Option (List Char × List Char)
  | [] => none
  | c :: cs =>
    if c = sep then some ([], cs)
    else (pySplitFirst sep cs).map (fun p => (c :: p.1, p.2))

/-- Embedding of Python `content.replace('\r\n', '\n')` as used by
`_write_with_unix_newlines`: replace each non-overlapping occurrence of
CRLF, scanning left to right. -/
def pyReplaceCRLF : List Char → List Char
  | [] => []
  | '\r' :: '\n' :: rest => '\n' :: pyReplaceCRLF rest
  | c :: rest => c :: pyReplaceCRLF rest

/-- The written content of `_write_with_unix_newlines(path, content)`:
the content with CRLF sequences replaced by LF (the UTF-8 encoding to
bytes is the identity on the characters we reason about). -/
def writeWithUnixNewlinesContent (content : String) : String :=
  String.mk (pyReplaceCRLF content.data)

/-- Does the list contain the two-character CRLF sequence? -/
def hasCRLF : List Char → Bool
  | [] => false
  | '\r' :: '\n' :: _ => true
  | _ :: rest => hasCRLF rest

/-- Does the list contain the three-character sequence CR CR LF? -/
def hasCRCRLF : List Char → Bool
  | [] => false
  | '\r' :: '\r' :: '\n' :: _ => true
  | _ :: rest => hasCRCRLF rest

/-- Fuel-indexed worker for Python `str.replace` with a non-empty pattern:
scan left to right, replacing each non-overlapping occurrence.  Each step
consumes at least one input character, so fuel `l.length` suffices. -/
def replaceAllFuel (pat repl : List Char) : Nat → List Char → List Char
  | _, [] => []
  | 0, l => l
  | fuel + 1, c :: rest =>
    if pat.isPrefixOf (c :: rest) then
      repl ++ replaceAllFuel pat repl fuel (List.drop (pat.length - 1) rest)
    else c :: replaceAllFuel pat repl fuel rest

/-- Embedding of Python `str.replace(pat, repl)` for non-empty `pat`. -/
def replaceAll (pat repl l : List Char) : List Char :=
  replaceAllFuel pat repl l.length l

/-- `str.replace` lifted to `String`. -/
def strReplace (pat repl s : String) : String :=
  String.mk (replaceAll pat.data repl.data s.data)

/-- Embedding of the Python `in` substring test. -/
def hasSubstr (pat : List Char) : List Char → Bool
  | [] => pat.isEmpty
  | c :: cs => pat.isPrefixOf (c :: cs) || hasSubstr pat cs

/-- Join a list of lines with LF separators (no trailing newline).  The
multi-line template literals of the source are represented as their list
of lines joined by this function, which is byte-identical to the Python
literal. -/
def joinLines : List String → String
  | [] => ""
  | [l] => l
  | l :: ls => l ++ "\n" ++ joinLines ls


/-! ## The vector.yml template chain (`_init_vector_template`,
`_write_vector_config`)

`_init_vector_template` tries to read an adjacent `vector.yml` file; if
the file does not exist it uses the richer embedded default below; if
reading raises it falls back to the minimal embedded default.
`_write_vector_config` then substitutes the project/service names for the
placeholders. -/

/-- Outcome of the adjacent `vector.yml` template file access. -/
inductive VectorTemplateSource where
  | fileContent (s : String)
  | absent
  | unreadable
deriving DecidableEq

/-- The richer embedded default vector template (used when the adjacent
file does not exist). -/
def defaultVectorTemplate : String :=
  joinLines [
    "# Default Vector configuration for Supabase",
    "api:",
    "  enabled: true",
    "  address: 0.0.0.0:9001",
    "",
    "# Data sources",
    "sources:",
    "  docker_host:",
    "    type: docker_logs",
    "    exclude_containers:",
    "      - __PROJECT__-vector # Exclude vector logs from being ingested by itself",
    "",
    "# Data transformations",
    "transforms:",
    "  project_logs:",
    "    type: remap",
    "    inputs:",
    "      - docker_host",
    "    source: |-",
    "      .project = \"__PROJECT__\"",
    "      .event_message = del(.message)",
    "      .appname = del(.container_name)",
    "      del(.container_created_at)",
    "      del(.container_id)",
    "      del(.source_type)",
    "      del(.stream)",
    "      del(.label)",
    "      del(.image)",
    "      del(.host)",
    "      del(.stream)",
    "  router:",
    "    type: route",
    "    inputs:",
    "      - project_logs",
    "    route:",
    "      kong: '.appname == \"__PROJECT__-kong\"'",
    "      auth: '.appname == \"__PROJECT__-auth\"'",
    "      rest: '.appname == \"__PROJECT__-rest\"'",
    "      realtime: '.appname == \"__PROJECT__-realtime\"'",
    "      storage: '.appname == \"__PROJECT__-storage\"'",
    "      functions: '.appname == \"__PROJECT__-functions\"'",
    "      db: '.appname == \"__PROJECT__-db\"'",
    "",
    "# Data destinations",
    "sinks:",
    "  console_sink:",
    "    type: console",
    "    inputs:",
    "      - project_logs",
    "    encoding:",
    "      codec: json",
    "    target: stdout",
    "",
    "  analytics:",
    "    type: http",
    "    inputs:",
    "      - project_logs",
    "    encoding:",
    "      codec: json",
    "    uri: http://__ANALYTICS_SERVICE__:4000/api/logs",
    "    method: post",
    "    auth:",
    "      strategy: bearer",
    "      token: \"$\x7bLOGFLARE_API_KEY\x7d\"",
    "    request:",
    "      headers:",
    "        Content-Type: application/json" ]

/-- The minimal embedded vector template (used when reading the adjacent
file raises). -/
def minimalVectorTemplate : String :=
  joinLines [
    "# Default Vector configuration for Supabase",
    "api:",
    "  enabled: true",
    "  address: 0.0.0.0:9001",
    "",
    "# Data sources",
    "sources:",
    "  docker_syslog:",
    "    type: docker_logs",
    "    docker_host: unix:///var/run/docker.sock",
    "",
    "# Data transformations",
    "transforms:",
    "  parse_logs:",
    "    type: remap",
    "    inputs:",
    "      - docker_syslog",
    "    source: |",
    "      .parsed = .message",
    "      .container_name = .container_name",
    "      .timestamp = .timestamp",
    "",
    "# Data destinations",
    "sinks:",
    "  console:",
    "    type: console",
    "    inputs:",
    "      - parse_logs",
    "    encoding:",
    "      codec: json",
    "",
    "  analytics:",
    "    type: http",
    "    inputs:",
    "      - parse_logs",
    "    encoding:",
    "      codec: json",
    "    uri: http://__ANALYTICS_SERVICE__:4000/api/logs",
    "    method: post",
    "    auth:",
    "      strategy: bearer",
    "      token: \"$\x7bLOGFLARE_API_KEY\x7d\"",
    "    request:",
    "      headers:",
    "        Content-Type: application/json" ]

/-- Embedding of `_init_vector_template`: the template body selected for
each outcome of the adjacent file access.  No outcome raises; the
fallbacks only log. -/
def initVectorTemplate : VectorTemplateSource → String
  | .fileContent s => s
  | .absent => defaultVectorTemplate
  | .unreadable => minimalVectorTemplate

/-- Embedding of the substitution performed by `_write_vector_config`:
replace `__PROJECT__`, then `__ANALYTICS_SERVICE__`, then
`__KONG_SERVICE__`. -/
def renderVectorConfig (projectName tpl : String) : String :=
  strReplace "__KONG_SERVICE__" (projectName ++ "-kong")
    (strReplace "__ANALYTICS_SERVICE__" (projectName ++ "-analytics")
      (strReplace "__PROJECT__" projectName tpl))

/-- The `in` substring test lifted to `String`. -/
def strHasSubstr (pat s : String) : Bool :=
  hasSubstr pat.data s.data


/-! ## Filesystem model and the materializer
(`_create_project_directory`, `run`, `_fix_realtime_healthcheck`,
`_create_docker_compose_override`, `_write_vector_config`)

Paths are segment lists; the filesystem is a partial map from paths to
entries.  Each operation returns the new state together with an optional
error (the Python exception); a sequence of operations stops at the first
error, like exception propagation. -/

/-- A filesystem entry. -/
inductive Entry where
  | dir
  | file (content : String)
deriving DecidableEq

/-- A path, as its list of segments. -/
abbrev FsPath := List String

/-- The filesystem: a partial map from paths to entries. -/
def FS := FsPath → Option Entry

/-- Update the entry at a path. -/
def fsSet (fs : FS) (p : FsPath) (e : Entry) : FS :=
  fun q => if q = p then some e else fs q

/-- Remove the entry at a path (`unlink`). -/
def fsRemove (fs : FS) (p : FsPath) : FS :=
  fun q => if q = p then none else fs q

/-- The filesystem exceptions the generator can hit. -/
inductive FsError where
  | alreadyExists
  | notADirectory
  | fileExists
  | isADirectory
  | fileNotFound
deriving DecidableEq

/-- Result of a filesystem operation: the state after it, and the raised
exception if any. -/
abbrev FsResult := FS × Option FsError

def isFile : Option Entry → Bool
  | some (.file _) => true
  | _ => false

def isDirEntry : Option Entry → Bool
  | some .dir => true
  | _ => false

/-- Ensure one path is a directory, creating it when missing (a parent
step of `mkdir(parents=True)`); an existing file raises. -/
def ensureDir (fs : FS) (p : FsPath) : FsResult :=
  match fs p with
  | none => (fsSet fs p .dir, none)
  | some .dir => (fs, none)
  | some (.file _) => (fs, some .notADirectory)

def mkdirAux (fs : FS) : List FsPath → FsResult
  | [] => (fs, none)
  | q :: qs =>
    match ensureDir fs q with
    | (fs', none) => mkdirAux fs' qs
    | r => r

/-- The proper ancestor prefixes of a path, shortest first. -/
def properPrefixes (p : FsPath) : List FsPath :=
  (List.range (p.length - 1)).map (fun i => p.take (i + 1))

/-- The final step of `mkdir`: create the target itself; an existing
directory raises only when `existOk` is false; an existing file raises. -/
def mkdirFinal (fs : FS) (p : FsPath) (existOk : Bool) : FsResult :=
  match fs p with
  | none => (fsSet fs p .dir, none)
  | some .dir => if existOk then (fs, none) else (fs, some .fileExists)
  | some (.file _) => (fs, some .fileExists)

/-- `Path.mkdir(parents=True, exist_ok=existOk)`: create missing
ancestors, then the path itself. -/
def mkdir (fs : FS) (p : FsPath) (existOk : Bool) : FsResult :=
  match mkdirAux fs (properPrefixes p) with
  | (fs', none) => mkdirFinal fs' p existOk
  | r => r

/-- Embedding of `_create_project_directory`: fail fast with
`FileExistsError` when the project directory already exists (before any
filesystem change), else create it with parents. -/
def createProjectDirectory (fs : FS) (root : FsPath) : FsResult :=
  if (fs root).isSome then (fs, some .alreadyExists)
  else mkdir fs root false

/-- The parent of the target must be an existing directory for a write
(an empty parent path is the working directory, always present). -/
def parentIsDir (fs : FS) (p : FsPath) : Bool :=
  if p.dropLast.isEmpty then true else isDirEntry (fs p.dropLast)

/-- `Path.write_text` / `Path.write_bytes`: create or truncate the file;
raises when the target is a directory or the parent is missing. -/
def writeFile (fs : FS) (p : FsPath) (content : String) : FsResult :=
  if parentIsDir fs p then
    match fs p with
    | some .dir => (fs, some .isADirectory)
    | _ => (fsSet fs p (.file content), none)
  else (fs, some .fileNotFound)

/-- `_write_with_unix_newlines`: normalize CRLF to LF, then write. -/
def writeUnix (fs : FS) (p : FsPath) (content : String) : FsResult :=
  writeFile fs p (writeWithUnixNewlinesContent content)

/-- `Path.read_text`. -/
def readFile (fs : FS) (p : FsPath) : Option String :=
  match fs p with
  | some (.file c) => some c
  | _ => none

/-- `if dir_path.exists() and not dir_path.is_dir(): dir_path.unlink()`. -/
def unlinkIfFile (fs : FS) (p : FsPath) : FS :=
  if isFile (fs p) then fsRemove fs p else fs

/-- One iteration of the subdirectory loop of `run` (and the
`volumes/functions/main` preparation, which is identical): remove a
conflicting file at the path, then `mkdir(parents=True, exist_ok=True)`. -/
def prepDir (root : FsPath) (sub : List String) (fs : FS) : FsResult :=
  mkdir (unlinkIfFile fs (root ++ sub)) (root ++ sub) true

/-- The subdirectory list of `run`, in source order. -/
def runSubdirs : List (List String) :=
  [["volumes", "api"], ["volumes", "db", "data"], ["volumes", "functions"],
   ["volumes", "logs"], ["volumes", "pooler"], ["volumes", "storage"],
   ["volumes", "analytics"], ["volumes", "db"]]

/-- The rendered template set (`self.templates`), one field per artifact
`run` writes.  The bodies are data to `run`; the env/vector/kong bodies
reasoned about elsewhere are produced by `envTemplate`,
`initVectorTemplate` and the kong renderer. -/
structure Templates where
  docker_compose : String
  env : String
  kong : String
  vector : String
  pooler : String
  supabase_sql : String
  logs_sql : String
  jwt_sql : String
  pooler_sql : String
  realtime_sql : String
  roles_sql : String
  webhooks_sql : String
  function_main : String
  reset_script : String
  readme : String

/-- The default serverless-function stub `run` writes when
`volumes/functions/main/index.ts` is absent. -/
def sampleFunctionStub : String :=
  joinLines [
    "// Sample Supabase Edge Function",
    "import \x7b serve \x7d from \"https://deno.land/std@0.131.0/http/server.ts\";",
    "serve((_req) => new Response(\"Hello from Edge Functions!\"));" ] ++ "\n"

/-- The content of `templates["function_main"]` (a fixed literal in
`_init_function_templates`), written unconditionally over
`volumes/functions/main/index.ts` near the end of `run`. -/
def functionMainTemplate : String :=
  joinLines [
    "// Follow this setup guide to integrate the Deno language server with your editor:",
    "// https://deno.land/manual/getting_started/setup_your_environment",
    "// This enables autocomplete, go to definition, etc.",
    "",
    "import \x7b serve \x7d from \"https://deno.land/std@0.131.0/http/server.ts\";",
    "",
    "console.log(\"Hello from Functions!\");",
    "",
    "serve(async (req) => \x7b",
    "  const \x7b name \x7d = await req.json();",
    "  const data = \x7b",
    "    message: `Hello $\x7bname\x7d!`,",
    "  \x7d;",
    "",
    "  return new Response(",
    "    JSON.stringify(data),",
    "    \x7b headers: \x7b \"Content-Type\": \"application/json\" \x7d \x7d,",
    "  );",
    "\x7d);" ]

/-- The fixed `docker-compose.override.yml` content
(`_create_docker_compose_override`). -/
def overrideContent : String :=
  joinLines [
    "services:",
    "  kong:",
    "    volumes:",
    "      - ./volumes/api/kong.yml:/home/kong/kong.yml:ro,z",
    "    entrypoint: /docker-entrypoint.sh kong docker-start" ] ++ "\n"

/-- The health-check block `_fix_realtime_healthcheck` looks for. -/
def oldHealthcheck : String :=
  joinLines [
    "    healthcheck:",
    "      test:",
    "        [",
    "          \"CMD\",",
    "          \"curl\",",
    "          \"-sSfL\",",
    "          \"--head\",",
    "          \"-o\",",
    "          \"/dev/null\",",
    "          \"-H\",",
    "          \"Authorization: Bearer $\x7bANON_KEY\x7d\",",
    "          \"http://localhost:4000/api/tenants/realtime-dev/health\"",
    "        ]" ]

/-- The replacement health-check block. -/
def newHealthcheck : String :=
  joinLines [
    "    healthcheck:",
    "      test:",
    "        [",
    "          \"CMD-SHELL\",",
    "          \"curl -sSfL http://localhost:4000/status\"",
    "        ]" ]

/-- Embedding of `_fix_realtime_healthcheck`: read the already written
manifest; when the expected block occurs, rewrite the manifest with the
block replaced (through the Unix-newline writer); otherwise do nothing. -/
def fixRealtimeHealthcheck (root : FsPath) (fs : FS) : FsResult :=
  match readFile fs (root ++ ["docker-compose.yml"]) with
  | none => (fs, some .fileNotFound)
  | some content =>
    if strHasSubstr oldHealthcheck content then
      writeUnix fs (root ++ ["docker-compose.yml"])
        (strReplace oldHealthcheck newHealthcheck content)
    else (fs, none)

/-- Write the sample stub only when `index.ts` is not already present. -/
def writeStubIfMissing (root : FsPath) (fs : FS) : FsResult :=
  if (fs (root ++ ["volumes", "functions", "main", "index.ts"])).isSome then (fs, none)
  else writeFile fs (root ++ ["volumes", "functions", "main", "index.ts"]) sampleFunctionStub

/-- Run a sequence of filesystem operations, stopping at the first
error. -/
def runOps : List (FS → FsResult) → FS → FsResult
  | [], fs => (fs, none)
  | op :: ops, fs =>
    match op fs with
    | (fs', none) => runOps ops fs'
    | r => r

/-- The operation sequence of `run`, in source order: the subdirectory
loop, the main function directory with its guarded stub, every artifact
write, and the health-check patch. -/
def runOpList (projectName : String) (tpl : Templates) (root : FsPath) :
    List (FS → FsResult) :=
  runSubdirs.map (fun sub => prepDir root sub)
  ++ [ prepDir root ["volumes", "functions", "main"],
       writeStubIfMissing root,
       fun fs => writeUnix fs (root ++ ["docker-compose.yml"]) tpl.docker_compose,
       fun fs => writeUnix fs (root ++ [".env"]) tpl.env,
       fun fs => writeUnix fs (root ++ ["volumes", "api", "kong.yml"]) tpl.kong,
       fun fs => writeFile fs (root ++ ["docker-compose.override.yml"]) overrideContent,
       fun fs => writeFile fs (root ++ ["volumes", "logs", "vector.yml"])
         (renderVectorConfig projectName tpl.vector),
       fun fs => writeUnix fs (root ++ ["volumes", "pooler", "pooler.exs"]) tpl.pooler,
       fun fs => writeUnix fs (root ++ ["volumes", "db", "_supabase.sql"]) tpl.supabase_sql,
       fun fs => writeUnix fs (root ++ ["volumes", "db", "logs.sql"]) tpl.logs_sql,
       fun fs => writeUnix fs (root ++ ["volumes", "db", "jwt.sql"]) tpl.jwt_sql,
       fun fs => writeUnix fs (root ++ ["volumes", "db", "pooler.sql"]) tpl.pooler_sql,
       fun fs => writeUnix fs (root ++ ["volumes", "db", "realtime.sql"]) tpl.realtime_sql,
       fun fs => writeUnix fs (root ++ ["volumes", "db", "roles.sql"]) tpl.roles_sql,
       fun fs => writeUnix fs (root ++ ["volumes", "db", "webhooks.sql"]) tpl.webhooks_sql,
       fun fs => writeFile fs (root ++ ["volumes", "functions", "main", "index.ts"])
         tpl.function_main,
       fun fs => writeFile fs (root ++ ["reset.sh"]) tpl.reset_script,
       fun fs => writeFile fs (root ++ ["README.md"]) tpl.readme,
       fixRealtimeHealthcheck root ]

/-- Embedding of `run`. -/
def run (projectName : String) (tpl : Templates) (root : FsPath) (fs : FS) : FsResult :=
  runOps (runOpList projectName tpl root) fs

/-- One full generation: `__init__`'s directory creation followed by
`run` (the prompts and port probing that precede the directory creation
touch no filesystem state). -/
def generate (projectName : String) (tpl : Templates) (root : FsPath) (fs : FS) :
    FsResult :=
  match createProjectDirectory fs root with
  | (fs', none) => run projectName tpl root fs'
  | r => r

/-- A template set with empty artifact bodies except the real
`function_main` literal (the directory logic of `run` does not depend on
the bodies). -/
def plainTemplates : Templates :=
  { docker_compose := "", env := "", kong := "", vector := "", pooler := "",
    supabase_sql := "", logs_sql := "", jwt_sql := "", pooler_sql := "",
    realtime_sql := "", roles_sql := "", webhooks_sql := "",
    function_main := functionMainTemplate, reset_script := "", readme := "" }

/-- The path of the main serverless function file under a root. -/
def indexTsPath (root : FsPath) : FsPath :=
  root ++ ["volumes", "functions", "main", "index.ts"]

/-- A pre-seeded state: the project root and the main function directory
exist, and `index.ts` already holds `seeded`. -/
def seededFs (root : FsPath) (seeded : String) : FS :=
  fun q =>
    if q = root then some .dir
    else if q = root ++ ["volumes"] then some .dir
    else if q = root ++ ["volumes", "functions"] then some .dir
    else if q = root ++ ["volumes", "functions", "main"] then some .dir
    else if q = indexTsPath root then some (.file seeded)
    else none

/-- A state in which stale files from a prior partial run sit at every
leaf path of the subdirectory tree (the project root itself and the
needed intermediate directories exist as directories). -/
def leafConflictFs (root : FsPath) : FS :=
  fun q =>
    if q = root then some .dir
    else if q = root ++ ["volumes"] then some .dir
    else if q = root ++ ["volumes", "api"] then some (.file "stale")
    else if q = root ++ ["volumes", "db"] then some .dir
    else if q = root ++ ["volumes", "db", "data"] then some (.file "stale")
    else if q = root ++ ["volumes", "functions"] then some .dir
    else if q = root ++ ["volumes", "functions", "main"] then some (.file "stale")
    else if q = root ++ ["volumes", "logs"] then some (.file "stale")
    else if q = root ++ ["volumes", "pooler"] then some (.file "stale")
    else if q = root ++ ["volumes", "storage"] then some (.file "stale")
    else if q = root ++ ["volumes", "analytics"] then some (.file "stale")
    else none

/-- A state in which the intermediate segment `volumes` itself is a file
below an absent project root. -/
def midConflictFs (root : FsPath) : FS :=
  fun q => if q = root ++ ["volumes"] then some (.file "stale") else none

/-- The same intermediate conflict with the root already created. -/
def midConflictFsWithRoot (root : FsPath) : FS :=
  fun q =>
    if q = root then some .dir
    else if q = root ++ ["volumes"] then some (.file "stale") else none

/-- A state with a stale file at the subdirectory-list path
`volumes/functions` (and nothing below it). -/
def funcConflictFs (root : FsPath) : FS :=
  fun q =>
    if q = root then some .dir
    else if q = root ++ ["volumes"] then some .dir
    else if q = root ++ ["volumes", "functions"] then some (.file "stale")
    else none

/-- A state with a stale file at the subdirectory-list path `volumes/db`.
Although `volumes/db` is in the subdirectory list, it is also an ancestor
of `volumes/db/data`, which the loop processes first. -/
def dbConflictFs (root : FsPath) : FS :=
  fun q =>
    if q = root then some .dir
    else if q = root ++ ["volumes"] then some .dir
    else if q = root ++ ["volumes", "db"] then some (.file "stale")
    else none


/-- The empty filesystem. -/
def fsEmpty : FS := fun _ => none

/-- A filesystem holding only the project root directory. -/
def rootOnlyFs : FS := fun q => if q = ["proj"] then some Entry.dir else none

/-- A string free of `splitlines` line terminators. -/
def lineClean (s : String) : Bool :=
  s.data.all (fun c => !isPyLineBreak c)

/-- A string free of `str.strip()` whitespace characters. -/
def stripClean (s : String) : Bool :=
  s.data.all (fun c => !isPyWhitespace c)

/-- The character set of the generated secrets:
`random.choices(string.ascii_letters + string.digits, k=…)` draws from the
ASCII alphanumeric alphabet. -/
def isAlphanumStr (s : String) : Bool :=
  s.data.all Char.isAlphanum

/-! ## The `.env` template (`_init_env_template`)

The template is a single f-string literal; it is represented here as its
list of lines joined with LF (`joinLines`), which is byte-identical to the
Python literal.  The five generated secrets and the six ports are the
f-string's interpolated values.  The two demo API keys are the fixed
literals of the source. -/

/-- The fixed demo `ANON_KEY` value of the env template. -/
def anonKeyValue : String :=
  "eyJhbGciOiJIUzI1NiIsInR5cCI6IkpXVCJ9.eyAgCiAgICAicm9sZSI6ICJhbm9uIiwKICAgICJpc3MiOiAic3VwYWJhc2UtZGVtbyIsCiAgICAiaWF0IjogMTY0MTc2OTIwMCwKICAgICJleHAiOiAxNzk5NTM1NjAwCn0.dc_X5iR_VP_qT0zsiyj_I_OZ2T9FtRU2BBNWN8Bu4GE"

/-- The fixed demo `SERVICE_ROLE_KEY` value of the env template. -/
def serviceRoleKeyValue : String :=
  "eyJhbGciOiJIUzI1NiIsInR5cCI6IkpXVCJ9.eyAgCiAgICAicm9sZSI6ICJzZXJ2aWNlX3JvbGUiLAogICAgImlzcyI6ICJzdXBhYmFzZS1kZW1vIiwKICAgICJpYXQiOiAxNjQxNzY5MjAwLAogICAgImV4cCI6IDE3OTk1MzU2MDAKfQ.DaYlNEoUrrEn2Ig7tqibS-PHK5vgusbcbo7X36XVt4Q"

/-- The lines of the rendered env template, in source order.
`projectName` is `self.project_name`; `password`, `jwtSecret`,
`secretKeyBase`, `vaultEncKey`, `logflareKey` are the five generated
secrets; `ports` are the allocated ports. -/
def envLines (projectName password jwtSecret secretKeyBase vaultEncKey logflareKey : String)
    (ports : Ports) : List String :=
  [ "############",
    "# Secrets",
    "# YOU MUST CHANGE THESE BEFORE GOING INTO PRODUCTION",
    "############",
    "POSTGRES_PASSWORD=" ++ password,
    "JWT_SECRET=" ++ jwtSecret,
    "ANON_KEY=" ++ anonKeyValue,
    "SERVICE_ROLE_KEY=" ++ serviceRoleKeyValue,
    "DASHBOARD_USERNAME=supabase",
    "DASHBOARD_PASSWORD=" ++ projectName,
    "SECRET_KEY_BASE=" ++ secretKeyBase,
    "VAULT_ENC_KEY=" ++ vaultEncKey,
    "############",
    "# Database - You can change these to any PostgreSQL database that has logical replication enabled.",
    "############",
    "# This is where other containers connect to the DB container internally",
    "POSTGRES_HOST=" ++ projectName ++ "-db",
    "POSTGRES_DB=postgres",
    "# This port is used for external connections from your host",
    "POSTGRES_PORT=" ++ toString ports.postgres,
    "# default user is postgres",
    "############",
    "# Supavisor -- Database pooler",
    "############",
    "POOLER_PROXY_PORT_TRANSACTION=" ++ toString ports.pooler,
    "POOLER_DEFAULT_POOL_SIZE=20",
    "POOLER_MAX_CLIENT_CONN=100",
    "POOLER_TENANT_ID=your-tenant-id",
    "############",
    "# API Proxy - Configuration for the Kong Reverse proxy.",
    "############",
    "KONG_HTTP_PORT=" ++ toString ports.kong_http,
    "KONG_HTTPS_PORT=" ++ toString ports.kong_https,
    "############",
    "# API - Configuration for PostgREST.",
    "############",
    "PGRST_DB_SCHEMAS=public,storage,graphql_public",
    "############",
    "# Auth - Configuration for the GoTrue authentication server.",
    "############",
    "## General",
    "SITE_URL=http://localhost:" ++ toString ports.studio,
    "ADDITIONAL_REDIRECT_URLS=",
    "JWT_EXPIRY=3600",
    "DISABLE_SIGNUP=false",
    "API_EXTERNAL_URL=http://localhost:" ++ toString ports.kong_http,
    "## Mailer Config",
    "MAILER_URLPATHS_CONFIRMATION=\"/auth/v1/verify\"",
    "MAILER_URLPATHS_INVITE=\"/auth/v1/verify\"",
    "MAILER_URLPATHS_RECOVERY=\"/auth/v1/verify\"",
    "MAILER_URLPATHS_EMAIL_CHANGE=\"/auth/v1/verify\"",
    "## Email auth",
    "ENABLE_EMAIL_SIGNUP=true",
    "ENABLE_EMAIL_AUTOCONFIRM=true",
    "SMTP_ADMIN_EMAIL=admin@example.com",
    "SMTP_HOST=" ++ projectName ++ "-mail",
    "SMTP_PORT=2500",
    "SMTP_USER=fake_mail_user",
    "SMTP_PASS=fake_mail_password",
    "SMTP_SENDER_NAME=fake_sender",
    "ENABLE_ANONYMOUS_USERS=false",
    "## Phone auth",
    "ENABLE_PHONE_SIGNUP=true",
    "ENABLE_PHONE_AUTOCONFIRM=true",
    "############",
    "# Studio - Configuration for the Dashboard",
    "############",
    "STUDIO_DEFAULT_ORGANIZATION=\"" ++ projectName ++ "\"",
    "STUDIO_DEFAULT_PROJECT=\"" ++ projectName ++ "\"",
    "STUDIO_PORT=" ++ toString ports.studio,
    "# replace if you intend to use Studio outside of localhost",
    "SUPABASE_PUBLIC_URL=http://localhost:" ++ toString ports.kong_http,
    "# Enable webp support",
    "IMGPROXY_ENABLE_WEBP_DETECTION=true",
    "# Add your OpenAI API key to enable SQL Editor Assistant",
    "OPENAI_API_KEY=",
    "############",
    "# Functions - Configuration for Functions",
    "############",
    "# NOTE: VERIFY_JWT applies to all functions. Per-function VERIFY_JWT is not supported yet.",
    "FUNCTIONS_VERIFY_JWT=false",
    "############",
    "# Logs - Configuration for Logflare",
    "# Please refer to https://supabase.com/docs/reference/self-hosting-analytics/introduction",
    "############",
    "LOGFLARE_LOGGER_BACKEND_API_KEY=" ++ logflareKey,
    "# Change vector.toml sinks to reflect this change",
    "LOGFLARE_API_KEY=" ++ logflareKey,
    "# Docker socket location - this value will differ depending on your OS",
    "DOCKER_SOCKET_LOCATION=/var/run/docker.sock",
    "# Google Cloud Project details",
    "GOOGLE_PROJECT_ID=GOOGLE_PROJECT_ID",
    "GOOGLE_PROJECT_NUMBER=GOOGLE_PROJECT_NUMBER" ]

/-- The rendered env template (`self.templates["env"]`). -/
def envTemplate (projectName password jwtSecret secretKeyBase vaultEncKey logflareKey : String)
    (ports : Ports) : String :=
  joinLines (envLines projectName password jwtSecret secretKeyBase vaultEncKey logflareKey ports)

/-- `line.split("=", 1)[1].strip()`: everything after the first `=` of a
matched line, stripped.  In `_extract_env_value` the matched line is known
to start with `key=`, so the separator is always present; the `none`
branch is unreachable there. -/
def extractFromLine (line : String) : String :=
  match pySplitFirst '=' line.data with
  | some p => String.mk (pyStripL p.2)
  | none => String.mk (pyStripL [])

/-- Embedding of `_extract_env_value(key)`: scan the lines of the rendered
env template for the first line starting with `key=`; on a hit return
everything after the first `=`, stripped; otherwise return the
`missing_<key>` sentinel. -/
def extractEnvValue (env key : String) : String :=
  match (pySplitlines env).find? (fun line => pyStartsWith (key ++ "=").data line.data) with
  | some line => extractFromLine line
  | none => "missing_" ++ key

/-! ## The Kong template header (`_init_kong_template`)

Only the head of the gateway config references the four values read back
from the env artifact (the two demo API keys and the dashboard
credentials); the remainder of the template (the service/route blocks) is
elided here as it contains no further reference to them.  The four values
are extracted from the already-rendered env text, exactly as in the
source. -/

/-- The head of `self.templates["kong"]` up to and including the
`basicauth_credentials` block, as a list of lines. -/
def kongHeaderLines (anonKey serviceKey dashboardUsername dashboardPassword : String) :
    List String :=
  [ "_format_version: '2.1'",
    "_transform: true",
    "",
    "consumers:",
    "  - username: DASHBOARD",
    "  - username: anon",
    "    keyauth_credentials:",
    "      - key: " ++ anonKey,
    "  - username: service_role",
    "    keyauth_credentials:",
    "      - key: " ++ serviceKey,
    "",
    "acls:",
    "  - consumer: anon",
    "    group: anon",
    "  - consumer: service_role",
    "    group: admin",
    "",
    "basicauth_credentials:",
    "  - consumer: DASHBOARD",
    "    username: " ++ dashboardUsername,
    "    password: " ++ dashboardPassword ]

/-- The head of the rendered Kong template: the four interpolated values
are read back from the rendered env text by `_extract_env_value`. -/
def initKongHeader (envText : String) : List String :=
  kongHeaderLines (extractEnvValue envText "ANON_KEY")
    (extractEnvValue envText "SERVICE_ROLE_KEY")
    (extractEnvValue envText "DASHBOARD_USERNAME")
    (extractEnvValue envText "DASHBOARD_PASSWORD")


end SupabaseSetup

namespace SupabaseSetup

/-! ## Theorems about the port allocator -/

theorem findAvailablePort_none_of_allBusy (step : Nat) :
    ∀ fuel start, findAvailablePort (fun _ => false) step start fuel = none := by
  intro fuel
  induction fuel with
  | zero => intro start; rfl
  | succ n ih => intro start; simp [findAvailablePort, ih]

theorem findAvailablePort_some_exists (avail : Nat → Bool) (step : Nat) :
    ∀ fuel start p, findAvailablePort avail step start fuel = some p →
      ∃ k, avail (start + step * k) = true := by
  intro fuel
  induction fuel with
  | zero => intro start p h; simp [findAvailablePort] at h
  | succ n ih =>
    intro start p h
    by_cases ha : avail start = true
    · exact ⟨0, by simpa using ha⟩
    · simp [findAvailablePort, ha] at h
      obtain ⟨k, hk⟩ := ih (start + step) p h
      exact ⟨k + 1, by rw [Nat.mul_succ]; convert hk using 2; omega⟩

theorem findAvailablePort_exists_some (avail : Nat → Bool) (step : Nat) :
    ∀ k start, avail (start + step * k) = true →
      ∃ p, findAvailablePort avail step start (k + 1) = some p := by
  intro k
  induction k with
  | zero => intro start h; exact ⟨start, by simp [findAvailablePort]; simpa using h⟩
  | succ n ih =>
    intro start h
    by_cases ha : avail start = true
    · exact ⟨start, by simp [findAvailablePort, ha]⟩
    · have h' : avail (start + step + step * n) = true := by
        convert h using 2; rw [Nat.mul_succ]; omega
      obtain ⟨p, hp⟩ := ih (start + step) h'
      exact ⟨p, by simp [findAvailablePort, ha]; exact hp⟩

/-- C1 (counterexample): with base port 4000 and a host on which only port
5000 is occupied, `_calculate_ports` returns `postgres = pooler = 5001`:
the six returned ports are not pairwise distinct.  The `postgres` search
starts at 4000+1000 = 5000 (busy) and probes forward to 5001, and the
`pooler` search starts at 4000+1001 = 5001, which the probe still reports
available because earlier allocations are not reserved. -/
theorem calculatePorts_not_distinct_counterexample :
    calculatePorts envBusy5000 4000 2 = some ⟨4000, 4443, 5001, 5001, 6000, 7000⟩ ∧
      ¬ PortsDistinct ⟨4000, 4443, 5001, 5001, 6000, 7000⟩ := by
  constructor
  · decide
  · decide

/-- C1 (amended): whenever the six window start ports `base`, `base+443`,
`base+1000`, `base+1001`, `base+2000`, `base+3000` are all reported
available by the probe, each search returns its start port, and the six
returned ports are pairwise distinct. -/
theorem calculatePorts_distinct_of_starts_available (avail : Nat → Bool) (base : Nat)
    (h0 : avail base = true) (h443 : avail (base + 443) = true)
    (h1000 : avail (base + 1000) = true) (h1001 : avail (base + 1001) = true)
    (h2000 : avail (base + 2000) = true) (h3000 : avail (base + 3000) = true) :
    calculatePorts avail base 1 =
        some ⟨base, base + 443, base + 1000, base + 1001, base + 2000, base + 3000⟩ ∧
      PortsDistinct ⟨base, base + 443, base + 1000, base + 1001, base + 2000, base + 3000⟩ := by
  constructor
  · simp [calculatePorts, findAvailablePort, h0, h443, h1000, h1001, h2000, h3000]
  · simp [PortsDistinct, portsList, List.nodup_cons, List.mem_cons]

/-- Witness for `calculatePorts_distinct_of_starts_available` at base 4000
with every port available. -/
theorem calculatePorts_distinct_witness :
    calculatePorts (fun _ => true) 4000 1 =
        some ⟨4000, 4443, 5000, 5001, 6000, 7000⟩ ∧
      PortsDistinct ⟨4000, 4443, 5000, 5001, 6000, 7000⟩ :=
  calculatePorts_distinct_of_starts_available (fun _ => true) 4000 rfl rfl rfl rfl rfl rfl

/-- C3 (counterexample): on a host where no probed port is ever available,
the probe loop of `_find_available_port` does not terminate: no amount of
fuel makes it return.  There is no iteration bound and no
`AllocationExhausted` failure anywhere in the code. -/
theorem findAvailablePort_nonterminating_counterexample :
    ¬ findTerminates (fun _ => false) 1 3000 := by
  rintro ⟨fuel, p, h⟩
  rw [findAvailablePort_none_of_allBusy] at h
  cases h

/-! ## String machinery lemmas -/

set_option maxHeartbeats 2000000 in
theorem pySplitlinesAux_clean_cons (c : Char) (cs acc : List Char)
    (h : isPyLineBreak c = false) :
    pySplitlinesAux (c :: cs) acc = pySplitlinesAux cs (c :: acc) := by
  have hr : c ≠ '\r' := by rintro rfl; simp [isPyLineBreak] at h
  rw [pySplitlinesAux.eq_3]
  · simp [h]
  · intro cs' hc _; exact hr hc

theorem pySplitlinesAux_nl (cs acc : List Char) :
    pySplitlinesAux ('\n' :: cs) acc = acc.reverse :: pySplitlinesAux cs [] := by
  rw [pySplitlinesAux.eq_3]
  · simp [isPyLineBreak]
  · intro cs' hc _; exact absurd hc (by decide)

/-- Consuming one line-terminator-free line followed by a LF separator. -/
theorem pySplitlinesAux_line (l : List Char) :
    ∀ (rest acc : List Char), l.all (fun c => !isPyLineBreak c) = true →
    pySplitlinesAux (l ++ '\n' :: rest) acc = (acc.reverse ++ l) :: pySplitlinesAux rest [] := by
  induction l with
  | nil => intro rest acc _; simpa using pySplitlinesAux_nl rest acc
  | cons c l ih =>
    intro rest acc h
    simp only [List.all_cons, Bool.and_eq_true, Bool.not_eq_true'] at h
    rw [List.cons_append, pySplitlinesAux_clean_cons c _ acc h.1,
      ih rest (c :: acc) (by simpa using h.2)]
    simp

/-- Consuming a final line-terminator-free line with no terminator. -/
theorem pySplitlinesAux_final (l : List Char) :
    ∀ acc : List Char, l.all (fun c => !isPyLineBreak c) = true →
    (acc.reverse ++ l ≠ []) →
    pySplitlinesAux l acc = [acc.reverse ++ l] := by
  induction l with
  | nil =>
    intro acc _ hne
    have : acc.isEmpty = false := by
      cases acc with
      | nil => simp at hne
      | cons a l => rfl
    simp [pySplitlinesAux, this]
  | cons c l ih =>
    intro acc h hne
    simp only [List.all_cons, Bool.and_eq_true, Bool.not_eq_true'] at h
    rw [pySplitlinesAux_clean_cons c _ acc h.1, ih (c :: acc) (by simpa using h.2) (by simp)]
    simp

/-- `splitlines` of lines joined with LF recovers the lines, provided every
line is free of line-terminator characters and the final line is
nonempty. -/
theorem pySplitlines_joinLines : ∀ L : List String,
    L.all lineClean = true → (L.getLast? ≠ some "") →
    pySplitlines (joinLines L) = L := by
  intro L
  induction L with
  | nil => intro _ _; rfl
  | cons l ls ih =>
    intro hclean hlast
    simp only [List.all_cons, Bool.and_eq_true] at hclean
    cases ls with
    | nil =>
      have hne : l ≠ "" := by
        intro he; apply hlast; simp [he]
      unfold pySplitlines joinLines
      rw [pySplitlinesAux_final l.data [] (by simpa [lineClean] using hclean.1)
        (by simpa using fun hd => hne (by cases l; simp_all))]
      simp
    | cons l2 ls2 =>
      have hjoin : (joinLines (l :: l2 :: ls2)).data
          = l.data ++ '\n' :: (joinLines (l2 :: ls2)).data := by
        show (l ++ "\n" ++ joinLines (l2 :: ls2)).data = _
        simp [String.data_append]
      unfold pySplitlines
      rw [hjoin, pySplitlinesAux_line l.data _ [] (by simpa [lineClean] using hclean.1)]
      simp only [List.reverse_nil, List.nil_append, List.map_cons]
      have := ih (by simp [hclean.2]) (by simpa using hlast)
      unfold pySplitlines at this
      rw [this]

/-- If `key` is not a Python-prefix of `lit` but fits inside it, it is not
a prefix of `lit ++ x` either. -/
theorem pyStartsWith_append_of_ne (key : List Char) :
    ∀ lit x : List Char, pyStartsWith key lit = false → key.length ≤ lit.length →
      pyStartsWith key (lit ++ x) = false := by
  induction key with
  | nil => intro lit x h _; simp [pyStartsWith] at h
  | cons k ks ih =>
    intro lit x h hlen
    cases lit with
    | nil => simp at hlen
    | cons a ls =>
      simp only [pyStartsWith, Bool.and_eq_false_iff] at h ⊢
      rcases h with h | h
      · exact Or.inl h
      · by_cases hk : (decide (k = a)) = false
        · exact Or.inl hk
        · exact Or.inr (ih ls x h (by simpa using hlen))

/-- Splitting at the first separator occurrence when the prefix is
separator-free. -/
theorem pySplitFirst_append (sep : Char) (l : List Char) :
    ∀ r : List Char, l.all (fun c => !(c = sep)) = true →
      pySplitFirst sep (l ++ sep :: r) = some (l, r) := by
  induction l with
  | nil => intro r _; simp [pySplitFirst]
  | cons c l ih =>
    intro r h
    simp only [List.all_cons, Bool.and_eq_true, Bool.not_eq_true'] at h
    have hc : c ≠ sep := by simpa using h.1
    simp only [List.cons_append, pySplitFirst, if_neg hc]
    rw [show l.append (sep :: r) = l ++ sep :: r from rfl, ih r h.2]
    rfl

theorem dropWhile_eq_self_of_all (p : Char → Bool) (l : List Char)
    (h : l.all (fun c => !p c) = true) : l.dropWhile p = l := by
  cases l with
  | nil => rfl
  | cons a as =>
    simp only [List.all_cons, Bool.and_eq_true, Bool.not_eq_true'] at h
    simp [List.dropWhile_cons, h.1]

/-- `str.strip()` is the identity on whitespace-free text. -/
theorem pyStripL_eq_self (l : List Char)
    (h : l.all (fun c => !isPyWhitespace c) = true) : pyStripL l = l := by
  unfold pyStripL
  rw [dropWhile_eq_self_of_all _ _ h,
    dropWhile_eq_self_of_all _ _ (by simpa using h), List.reverse_reverse]

set_option maxHeartbeats 1000000 in
theorem digitChar_not_linebreak (n : Nat) : isPyLineBreak (Nat.digitChar n) = false := by
  have hite : ∀ (c : Prop) (inst : Decidable c) (x y : Char),
      isPyLineBreak x = false → isPyLineBreak y = false →
      isPyLineBreak (if c then x else y) = false := by
    intro c inst x y hx hy
    split <;> assumption
  unfold Nat.digitChar
  repeat first | apply hite | decide

theorem toDigitsCore_all (p : Char → Bool) (hp : ∀ m, p (Nat.digitChar m) = true) :
    ∀ (fuel n : Nat) (acc : List Char), acc.all p = true →
      (Nat.toDigitsCore 10 fuel n acc).all p = true := by
  intro fuel
  induction fuel with
  | zero => intro n acc h; simpa [Nat.toDigitsCore] using h
  | succ f ih =>
    intro n acc h
    unfold Nat.toDigitsCore
    by_cases h10 : n / 10 = 0
    · simp only [h10, if_true, reduceIte]
      simp [h, hp]
    · simp only [h10, if_false, reduceIte]
      exact ih _ _ (by simp [h, hp])

/-- The decimal rendering of a `Nat` contains no line terminators. -/
theorem lineClean_toString_nat (n : Nat) : lineClean (toString n) = true := by
  show (Nat.repr n).data.all _ = true
  unfold Nat.repr
  show (Nat.toDigits 10 n).all _ = true
  unfold Nat.toDigits
  exact toDigitsCore_all _ (fun m => by simp [digitChar_not_linebreak m]) _ _ _ rfl

theorem lineClean_append (a b : String) :
    lineClean (a ++ b) = (lineClean a && lineClean b) := by
  simp [lineClean, String.data_append, List.all_append]

/-- Every line of the rendered env template is free of line terminators,
provided the project name and the five generated secrets are. -/
theorem envLines_clean (name pw jwt skb vek lfk : String) (ports : Ports)
    (hn : lineClean name = true) (hpw : lineClean pw = true)
    (hjwt : lineClean jwt = true) (hskb : lineClean skb = true)
    (hvek : lineClean vek = true) (hlfk : lineClean lfk = true) :
    (envLines name pw jwt skb vek lfk ports).all lineClean = true := by
  simp only [envLines, List.all_cons, List.all_nil, lineClean_append,
    lineClean_toString_nat, hn, hpw, hjwt, hskb, hvek, hlfk,
    Bool.and_true, Bool.true_and, Bool.and_self]
  decide

/-- `splitlines` of the rendered env template recovers exactly its line
list. -/
theorem pySplitlines_envTemplate (name pw jwt skb vek lfk : String) (ports : Ports)
    (hn : lineClean name = true) (hpw : lineClean pw = true)
    (hjwt : lineClean jwt = true) (hskb : lineClean skb = true)
    (hvek : lineClean vek = true) (hlfk : lineClean lfk = true) :
    pySplitlines (envTemplate name pw jwt skb vek lfk ports)
      = envLines name pw jwt skb vek lfk ports := by
  apply pySplitlines_joinLines
  · exact envLines_clean name pw jwt skb vek lfk ports hn hpw hjwt hskb hvek hlfk
  · simp [envLines]

theorem not_eq_true_of_eq_false {b : Bool} (h : b = false) : ¬ b = true := by
  simp [h]

/-- If neither of `key`/`lit` is a Python-prefix of the other, then `key`
is not a prefix of `lit ++ x` for any `x`. -/
theorem pyStartsWith_append_false : ∀ key lit x : List Char,
    pyStartsWith key lit = false → pyStartsWith lit key = false →
    pyStartsWith key (lit ++ x) = false := by
  intro key
  induction key with
  | nil => intro lit x h1 _; simp [pyStartsWith] at h1
  | cons k ks ih =>
    intro lit x h1 h2
    cases lit with
    | nil => simp [pyStartsWith] at h2
    | cons a ls =>
      simp only [pyStartsWith, Bool.and_eq_false_iff] at h1 h2 ⊢
      rcases h1 with h1 | h1
      · exact Or.inl h1
      · rcases h2 with h2 | h2
        · exact Or.inl (by revert h2; simp; intro h; exact fun he => h he.symm)
        · exact Or.inr (ih ls x h1 h2)

theorem startsWith_lit_append_false (key lit x : String)
    (h1 : pyStartsWith key.data lit.data = false)
    (h2 : pyStartsWith lit.data key.data = false) :
    pyStartsWith key.data (lit ++ x).data = false := by
  rw [String.data_append]
  exact pyStartsWith_append_false _ _ _ h1 h2

theorem pyStartsWith_self_append : ∀ pat x : List Char, pyStartsWith pat (pat ++ x) = true := by
  intro pat x
  induction pat with
  | nil => rfl
  | cons c cs ih => simp [pyStartsWith, ih]

theorem extractEnvValue_eq_of_find (env key line : String)
    (h : (pySplitlines env).find? (fun l => pyStartsWith (key ++ "=").data l.data)
      = some line) :
    extractEnvValue env key = extractFromLine line := by
  unfold extractEnvValue
  rw [h]

/-- Extracting from a rendered `KEY=value` line returns the stripped
value. -/
theorem extractFromLine_eq (lit v : String) (pre : List Char)
    (hlit : lit.data = pre ++ ['='])
    (hpre : pre.all (fun c => !(c = '=')) = true) :
    extractFromLine (lit ++ v) = String.mk (pyStripL v.data) := by
  unfold extractFromLine
  rw [String.data_append, hlit, List.append_assoc, List.singleton_append,
    pySplitFirst_append '=' pre v.data hpre]

set_option maxRecDepth 4000 in
set_option maxHeartbeats 2000000 in
/-- The four values read back from the rendered env text by
`_init_kong_template`, computed.  The project name must carry no
surrounding `strip` whitespace and no line terminators; the five
generated secrets are line-terminator-free (generated secrets are
alphanumeric). -/
theorem extractEnvValue_four (name pw jwt skb vek lfk : String) (ports : Ports)
    (hn : lineClean name = true) (hpw : lineClean pw = true)
    (hjwt : lineClean jwt = true) (hskb : lineClean skb = true)
    (hvek : lineClean vek = true) (hlfk : lineClean lfk = true)
    (hstrip : pyStripL name.data = name.data) :
    extractEnvValue (envTemplate name pw jwt skb vek lfk ports) "ANON_KEY" = anonKeyValue ∧
    extractEnvValue (envTemplate name pw jwt skb vek lfk ports) "SERVICE_ROLE_KEY"
      = serviceRoleKeyValue ∧
    extractEnvValue (envTemplate name pw jwt skb vek lfk ports) "DASHBOARD_USERNAME"
      = "supabase" ∧
    extractEnvValue (envTemplate name pw jwt skb vek lfk ports) "DASHBOARD_PASSWORD"
      = name := by
  have hsplit := pySplitlines_envTemplate name pw jwt skb vek lfk ports
    hn hpw hjwt hskb hvek hlfk
  refine ⟨?_, ?_, ?_, ?_⟩
  · rw [extractEnvValue_eq_of_find _ _ ("ANON_KEY=" ++ anonKeyValue) ?_]
    · rw [extractFromLine_eq _ _ "ANON_KEY".data (by decide) (by decide)]
      decide
    · rw [hsplit, envLines]
      rw [List.find?_cons_of_neg _ (by decide), List.find?_cons_of_neg _ (by decide),
        List.find?_cons_of_neg _ (by decide), List.find?_cons_of_neg _ (by decide)]
      rw [List.find?_cons_of_neg _ (by exact not_eq_true_of_eq_false (startsWith_lit_append_false ("ANON_KEY" ++ "=") "POSTGRES_PASSWORD=" pw (by decide) (by decide)))]
      rw [List.find?_cons_of_neg _ (by exact not_eq_true_of_eq_false (startsWith_lit_append_false ("ANON_KEY" ++ "=") "JWT_SECRET=" jwt (by decide) (by decide)))]
      rw [List.find?_cons_of_pos _ (by decide)]
  · rw [extractEnvValue_eq_of_find _ _ ("SERVICE_ROLE_KEY=" ++ serviceRoleKeyValue) ?_]
    · rw [extractFromLine_eq _ _ "SERVICE_ROLE_KEY".data (by decide) (by decide)]
      decide
    · rw [hsplit, envLines]
      rw [List.find?_cons_of_neg _ (by decide), List.find?_cons_of_neg _ (by decide),
        List.find?_cons_of_neg _ (by decide), List.find?_cons_of_neg _ (by decide)]
      rw [List.find?_cons_of_neg _ (by exact not_eq_true_of_eq_false (startsWith_lit_append_false ("SERVICE_ROLE_KEY" ++ "=") "POSTGRES_PASSWORD=" pw (by decide) (by decide)))]
      rw [List.find?_cons_of_neg _ (by exact not_eq_true_of_eq_false (startsWith_lit_append_false ("SERVICE_ROLE_KEY" ++ "=") "JWT_SECRET=" jwt (by decide) (by decide)))]
      rw [List.find?_cons_of_neg _ (by decide)]
      rw [List.find?_cons_of_pos _ (by decide)]
  · rw [extractEnvValue_eq_of_find _ _ "DASHBOARD_USERNAME=supabase" ?_]
    · decide
    · rw [hsplit, envLines]
      rw [List.find?_cons_of_neg _ (by decide), List.find?_cons_of_neg _ (by decide),
        List.find?_cons_of_neg _ (by decide), List.find?_cons_of_neg _ (by decide)]
      rw [List.find?_cons_of_neg _ (by exact not_eq_true_of_eq_false (startsWith_lit_append_false ("DASHBOARD_USERNAME" ++ "=") "POSTGRES_PASSWORD=" pw (by decide) (by decide)))]
      rw [List.find?_cons_of_neg _ (by exact not_eq_true_of_eq_false (startsWith_lit_append_false ("DASHBOARD_USERNAME" ++ "=") "JWT_SECRET=" jwt (by decide) (by decide)))]
      rw [List.find?_cons_of_neg _ (by decide), List.find?_cons_of_neg _ (by decide)]
      rw [List.find?_cons_of_pos _ (by decide)]
  · rw [extractEnvValue_eq_of_find _ _ ("DASHBOARD_PASSWORD=" ++ name) ?_]
    · rw [extractFromLine_eq _ _ "DASHBOARD_PASSWORD".data (by decide) (by decide), hstrip]
    · rw [hsplit, envLines]
      rw [List.find?_cons_of_neg _ (by decide), List.find?_cons_of_neg _ (by decide),
        List.find?_cons_of_neg _ (by decide), List.find?_cons_of_neg _ (by decide)]
      rw [List.find?_cons_of_neg _ (by exact not_eq_true_of_eq_false (startsWith_lit_append_false ("DASHBOARD_PASSWORD" ++ "=") "POSTGRES_PASSWORD=" pw (by decide) (by decide)))]
      rw [List.find?_cons_of_neg _ (by exact not_eq_true_of_eq_false (startsWith_lit_append_false ("DASHBOARD_PASSWORD" ++ "=") "JWT_SECRET=" jwt (by decide) (by decide)))]
      rw [List.find?_cons_of_neg _ (by decide), List.find?_cons_of_neg _ (by decide),
        List.find?_cons_of_neg _ (by decide)]
      rw [List.find?_cons_of_pos _ ?_]
      rw [show ("DASHBOARD_PASSWORD" ++ "=" : String) = "DASHBOARD_PASSWORD=" from by decide,
        String.data_append]
      exact pyStartsWith_self_append _ _

/-- C3 (amended): the search window of `_find_available_port` is unbounded;
the loop terminates exactly when some port of the arithmetic progression
`start, start+step, start+2*step, …` is reported available, and otherwise
loops forever (there is no `AllocationExhausted` condition in the code). -/
theorem findAvailablePort_terminates_iff (avail : Nat → Bool) (step start : Nat) :
    findTerminates avail step start ↔ ∃ k, avail (start + step * k) = true := by
  constructor
  · rintro ⟨fuel, p, h⟩
    exact findAvailablePort_some_exists avail step fuel start p h
  · rintro ⟨k, hk⟩
    obtain ⟨p, hp⟩ := findAvailablePort_exists_some avail step k start hk
    exact ⟨k + 1, p, hp⟩

/-- C2: with explicit base port 4000 and every port in `[4000, 7500)`
available, the allocator returns exactly
`kong_http=4000, kong_https=4443, postgres=5000, pooler=5001, studio=6000,
analytics=7000`; for any base with all six probed start ports available the
result is the fixed offset tuple (so repeated runs with the same probe
results return identical ports); and the rendered env lines for a project
named `demo` contain the line `POSTGRES_HOST=demo-db`. -/
theorem c2_scenario_and_determinism :
    (calculatePorts envFree4000to7500 4000 1 = some ⟨4000, 4443, 5000, 5001, 6000, 7000⟩)
    ∧ (∀ (avail : Nat → Bool) (base : Nat),
        avail base = true → avail (base + 443) = true → avail (base + 1000) = true →
        avail (base + 1001) = true → avail (base + 2000) = true → avail (base + 3000) = true →
        calculatePorts avail base 1
          = some ⟨base, base + 443, base + 1000, base + 1001, base + 2000, base + 3000⟩)
    ∧ (∀ pw jwt skb vek lfk : String,
        "POSTGRES_HOST=demo-db"
          ∈ envLines "demo" pw jwt skb vek lfk ⟨4000, 4443, 5000, 5001, 6000, 7000⟩) := by
  refine ⟨by decide, ?_, ?_⟩
  · intro avail base h0 h443 h1000 h1001 h2000 h3000
    simp [calculatePorts, findAvailablePort, h0, h443, h1000, h1001, h2000, h3000]
  · intro pw jwt skb vek lfk
    simp only [envLines, List.mem_cons]
    iterate 16 refine Or.inr ?_
    exact Or.inl (by decide)

/-- Witness for `c2_scenario_and_determinism`: the determinism conjunct
applied to the all-free probe environment at base 4000. -/
theorem c2_witness :
    calculatePorts (fun _ => true) 4000 1 = some ⟨4000, 4443, 5000, 5001, 6000, 7000⟩ :=
  c2_scenario_and_determinism.2.1 (fun _ => true) 4000 rfl rfl rfl rfl rfl rfl

set_option maxRecDepth 10000 in
/-- C4 (counterexample): for the project name `"demo "` (trailing space),
the value written into the env artifact as `DASHBOARD_PASSWORD=demo ` is
read back by `_extract_env_value` as `"demo"` — `strip()` removes the
trailing space, so the round trip is not byte-for-byte. -/
theorem extractEnvValue_roundtrip_counterexample :
    extractEnvValue (envTemplate "demo " "pw" "jw" "sk" "vk" "lk" ⟨1, 2, 3, 4, 5, 6⟩)
        "DASHBOARD_PASSWORD" = "demo"
      ∧ "demo" ≠ "demo " := by
  constructor
  · decide
  · decide

/-- C4 (amended): the extraction applies `strip()` to the raw value, so the
round trip is byte-for-byte exactly when the stored value carries no
surrounding whitespace.  For every project name free of line terminators
and of surrounding `strip` whitespace, and all line-terminator-free
generated secrets (generated secrets are alphanumeric), the four values
`ANON_KEY`, `SERVICE_ROLE_KEY`, `DASHBOARD_USERNAME`, `DASHBOARD_PASSWORD`
substituted into the rendered env artifact are recovered exactly by
`_extract_env_value`. -/
theorem extractEnvValue_roundtrip (name pw jwt skb vek lfk : String) (ports : Ports)
    (hn : lineClean name = true) (hpw : lineClean pw = true)
    (hjwt : lineClean jwt = true) (hskb : lineClean skb = true)
    (hvek : lineClean vek = true) (hlfk : lineClean lfk = true)
    (hstrip : pyStripL name.data = name.data) :
    extractEnvValue (envTemplate name pw jwt skb vek lfk ports) "ANON_KEY" = anonKeyValue ∧
    extractEnvValue (envTemplate name pw jwt skb vek lfk ports) "SERVICE_ROLE_KEY"
      = serviceRoleKeyValue ∧
    extractEnvValue (envTemplate name pw jwt skb vek lfk ports) "DASHBOARD_USERNAME"
      = "supabase" ∧
    extractEnvValue (envTemplate name pw jwt skb vek lfk ports) "DASHBOARD_PASSWORD"
      = name :=
  extractEnvValue_four name pw jwt skb vek lfk ports hn hpw hjwt hskb hvek hlfk hstrip

/-- Witness for `extractEnvValue_roundtrip` at project name `demo`. -/
theorem extractEnvValue_roundtrip_witness :
    extractEnvValue (envTemplate "demo" "pw" "jw" "sk" "vk" "lk" ⟨1, 2, 3, 4, 5, 6⟩)
        "DASHBOARD_PASSWORD" = "demo" :=
  (extractEnvValue_roundtrip "demo" "pw" "jw" "sk" "vk" "lk" ⟨1, 2, 3, 4, 5, 6⟩
    (by decide) (by decide) (by decide) (by decide) (by decide) (by decide)
    (by decide)).2.2.2

set_option maxRecDepth 10000 in
/-- C10 (counterexample): for the project name `"demo "` (trailing space),
the env artifact stores `DASHBOARD_PASSWORD=demo ` but the gateway config
embeds the stripped value `demo` as the basic-auth password, so the env
dashboard credentials and the gateway basic-auth credentials differ. -/
theorem kong_dashboard_password_counterexample :
    ("    password: demo"
        ∈ initKongHeader (envTemplate "demo " "pw" "jw" "sk" "vk" "lk" ⟨1, 2, 3, 4, 5, 6⟩))
      ∧ ("    password: demo "
        ∉ initKongHeader (envTemplate "demo " "pw" "jw" "sk" "vk" "lk" ⟨1, 2, 3, 4, 5, 6⟩)) := by
  constructor
  · decide
  · decide

/-- C10 (amended): for every invocation — every project name, all
generated secrets and all ports — the env artifact fixes
`DASHBOARD_USERNAME=supabase` and `DASHBOARD_PASSWORD=<project name>`
unconditionally (first conjunct: the dashboard credentials are never
randomly generated); and, provided the project name carries no line
terminators and no surrounding `strip` whitespace, the gateway config
embeds those same two values as its basic-auth credentials (second
conjunct). -/
theorem dashboard_credentials_fixed :
    (∀ (name pw jwt skb vek lfk : String) (ports : Ports),
        "DASHBOARD_USERNAME=supabase" ∈ envLines name pw jwt skb vek lfk ports
        ∧ ("DASHBOARD_PASSWORD=" ++ name) ∈ envLines name pw jwt skb vek lfk ports)
    ∧ (∀ (name pw jwt skb vek lfk : String) (ports : Ports),
        lineClean name = true → lineClean pw = true → lineClean jwt = true →
        lineClean skb = true → lineClean vek = true → lineClean lfk = true →
        pyStripL name.data = name.data →
        "    username: supabase"
            ∈ initKongHeader (envTemplate name pw jwt skb vek lfk ports)
        ∧ ("    password: " ++ name)
            ∈ initKongHeader (envTemplate name pw jwt skb vek lfk ports)) := by
  constructor
  · intro name pw jwt skb vek lfk ports
    constructor
    · simp [envLines]
    · simp [envLines]
  · intro name pw jwt skb vek lfk ports hn hpw hjwt hskb hvek hlfk hstrip
    obtain ⟨ha, hs, hu, hp⟩ :=
      extractEnvValue_four name pw jwt skb vek lfk ports hn hpw hjwt hskb hvek hlfk hstrip
    constructor
    · unfold initKongHeader
      rw [hu]
      simp [kongHeaderLines]
    · unfold initKongHeader
      rw [hp]
      simp [kongHeaderLines]

/-- Witness for `dashboard_credentials_fixed` at project name `demo`. -/
theorem dashboard_credentials_fixed_witness :
    ("    password: demo"
      ∈ initKongHeader (envTemplate "demo" "pw" "jw" "sk" "vk" "lk" ⟨1, 2, 3, 4, 5, 6⟩)) :=
  (dashboard_credentials_fixed.2 "demo" "pw" "jw" "sk" "vk" "lk" ⟨1, 2, 3, 4, 5, 6⟩
    (by decide) (by decide) (by decide) (by decide) (by decide) (by decide)
    (by decide)).2



/-! ## CRLF normalization (`_write_with_unix_newlines`) -/

set_option maxHeartbeats 2000000 in
theorem pyReplaceCRLF_cons (c : Char) (rest : List Char)
    (hne : ∀ rest', c = '\r' → rest = '\n' :: rest' → False) :
    pyReplaceCRLF (c :: rest) = c :: pyReplaceCRLF rest := by
  rw [pyReplaceCRLF.eq_3 c rest hne]

set_option maxHeartbeats 2000000 in
theorem hasCRLF_cons (c : Char) (rest : List Char)
    (hne : ∀ rest', c = '\r' → rest = '\n' :: rest' → False) :
    hasCRLF (c :: rest) = hasCRLF rest := by
  rw [hasCRLF.eq_3 c rest hne]

set_option maxHeartbeats 2000000 in
theorem hasCRCRLF_cons (c : Char) (rest : List Char)
    (hne : ∀ rest', c = '\r' → rest = '\r' :: '\n' :: rest' → False) :
    hasCRCRLF (c :: rest) = hasCRCRLF rest := by
  rw [hasCRCRLF.eq_3 c rest hne]

set_option maxHeartbeats 2000000 in
/-- If the CRLF replacement output starts with LF, the input started with
LF or with CRLF. -/
theorem head_pyReplaceCRLF : ∀ l : List Char,
    (pyReplaceCRLF l).head? = some '\n' →
    l.head? = some '\n' ∨ ∃ rest, l = '\r' :: '\n' :: rest := by
  intro l
  induction l using pyReplaceCRLF.induct with
  | case1 => intro h; simp [pyReplaceCRLF] at h
  | case2 rest ih => intro _; exact Or.inr ⟨rest, rfl⟩
  | case3 c rest hne ih =>
    intro h
    rw [pyReplaceCRLF_cons c rest hne] at h
    simp only [List.head?_cons, Option.some_inj] at h
    subst h
    exact Or.inl rfl

set_option maxHeartbeats 2000000 in
/-- The CRLF replacement output is CRLF-free whenever the input contains
no CR CR LF sequence. -/
theorem no_crlf_after_replace : ∀ l : List Char, hasCRCRLF l = false →
    hasCRLF (pyReplaceCRLF l) = false := by
  intro l
  induction l using pyReplaceCRLF.induct with
  | case1 => intro _; rfl
  | case2 rest ih =>
    intro h
    exact ih h
  | case3 c rest hne ih =>
    intro h
    have hrest : hasCRCRLF rest = false := by
      by_cases hp : c = '\r' ∧ ∃ r', rest = '\r' :: '\n' :: r'
      · obtain ⟨hc, hex⟩ := hp
        obtain ⟨r', hr⟩ := hex
        subst hc; subst hr
        simp [hasCRCRLF] at h
      · rw [hasCRCRLF_cons c rest (fun r' hc hr => hp ⟨hc, r', hr⟩)] at h
        exact h
    rw [pyReplaceCRLF_cons c rest hne]
    by_cases hc : c = '\r'
    · subst hc
      have hx : (pyReplaceCRLF rest).head? ≠ some '\n' := by
        intro hhd
        rcases head_pyReplaceCRLF rest hhd with hh | ⟨r', hr⟩
        · cases rest with
          | nil => simp at hh
          | cons a r2 =>
            simp only [List.head?_cons, Option.some_inj] at hh
            exact hne r2 rfl (by rw [hh])
        · subst hr
          simp [hasCRCRLF] at h
      rw [hasCRLF_cons _ _ ?_]
      · exact ih hrest
      · intro r' _ hr
        exact hx (by rw [hr]; rfl)
    · rw [hasCRLF_cons c _ (fun r' hcc _ => hc hcc)]
      exact ih hrest

/-- C6 (counterexample): `content.replace('\r\n', '\n')` can itself
produce a CRLF: on the rendered content `"a\r\r\n"` (reachable, e.g.,
from a project name containing a bare CR before a CRLF) the written bytes
of `_write_with_unix_newlines` still contain the two-byte terminator. -/
theorem writeWithUnixNewlines_crlf_counterexample :
    hasCRLF (writeWithUnixNewlinesContent "a\r\r\n").data = true ∧
      writeWithUnixNewlinesContent "a\r\r\n" = "a\r\n" := by
  constructor
  · decide
  · decide

/-- C6 (amended): the bytes written by `_write_with_unix_newlines` contain
zero CRLF occurrences for every rendered content that contains no
CR CR LF sequence (in particular for every content without a bare CR,
which holds for all templates rendered from CR-free parameters). -/
theorem writeWithUnixNewlines_no_crlf (content : String)
    (h : hasCRCRLF content.data = false) :
    hasCRLF (writeWithUnixNewlinesContent content).data = false :=
  no_crlf_after_replace content.data h

/-- Witness for `writeWithUnixNewlines_no_crlf` on a CRLF-carrying
content. -/
theorem writeWithUnixNewlines_no_crlf_witness :
    hasCRCRLF "a\r\nb".data = false ∧
      hasCRLF (writeWithUnixNewlinesContent "a\r\nb").data = false :=
  ⟨by decide, writeWithUnixNewlines_no_crlf "a\r\nb" (by decide)⟩

/-! ## Vector template fallback -/

set_option maxRecDepth 40000 in
/-- C9 (counterexample): when the adjacent template file exists but is
unreadable, the minimal embedded fallback is used; it contains no
`__PROJECT__` placeholder and no routing rules at all, so the written
`vector.yml` for project `demo` contains neither a `router` section nor
the `demo-kong` route — the claim's routing-rule guarantee fails in the
unreadable case. -/
theorem vector_unreadable_counterexample :
    initVectorTemplate .unreadable = minimalVectorTemplate ∧
    strHasSubstr "__PROJECT__" minimalVectorTemplate = false ∧
    strHasSubstr "router" (renderVectorConfig "demo" (initVectorTemplate .unreadable)) = false ∧
    strHasSubstr "demo-kong" (renderVectorConfig "demo" (initVectorTemplate .unreadable))
      = false := by
  refine ⟨rfl, by decide, by decide, by decide⟩

set_option maxRecDepth 40000 in
/-- C9 (amended): the template selection is total — neither fallback
raises.  When the adjacent file is absent, the richer embedded default is
used and the rendered config for project `demo` carries the project name
in its routing rules and the substituted service names, with no
placeholder left; when the file is unreadable, the minimal embedded
default is used and the rendered config still substitutes the analytics
service name, so generation succeeds in both cases. -/
theorem vector_fallback_renders :
    strHasSubstr "kong: '.appname == \"demo-kong\"'"
        (renderVectorConfig "demo" (initVectorTemplate .absent)) = true ∧
    strHasSubstr ".project = \"demo\""
        (renderVectorConfig "demo" (initVectorTemplate .absent)) = true ∧
    strHasSubstr "__PROJECT__"
        (renderVectorConfig "demo" (initVectorTemplate .absent)) = false ∧
    strHasSubstr "demo-analytics"
        (renderVectorConfig "demo" (initVectorTemplate .unreadable)) = true ∧
    strHasSubstr "__ANALYTICS_SERVICE__"
        (renderVectorConfig "demo" (initVectorTemplate .unreadable)) = false := by
  refine ⟨by decide, by decide, by decide, by decide, by decide⟩



/-! ## Root-directory preservation through the materializer -/

theorem ensureDir_preserves_root (root q : FsPath) (fs : FS)
    (h : fs root = some .dir) : (ensureDir fs q).1 root = some .dir := by
  unfold ensureDir
  cases hq : fs q with
  | none =>
    simp only [fsSet]
    split
    · rfl
    · exact h
  | some e =>
    cases e with
    | dir => exact h
    | file c => exact h

theorem mkdirAux_preserves_root (root : FsPath) :
    ∀ (qs : List FsPath) (fs : FS), fs root = some .dir →
      (mkdirAux fs qs).1 root = some .dir := by
  intro qs
  induction qs with
  | nil => intro fs h; exact h
  | cons q qs ih =>
    intro fs h
    unfold mkdirAux
    rcases he : ensureDir fs q with ⟨fs1, e⟩
    have h1 : fs1 root = some .dir := by
      have := ensureDir_preserves_root root q fs h
      rw [he] at this
      exact this
    cases e with
    | none => exact ih fs1 h1
    | some err => exact h1

theorem mkdirFinal_preserves_root (root p : FsPath) (b : Bool) (fs : FS)
    (h : fs root = some .dir) : (mkdirFinal fs p b).1 root = some .dir := by
  unfold mkdirFinal
  cases hp : fs p with
  | none =>
    simp only [fsSet]
    split
    · rfl
    · exact h
  | some e2 =>
    cases e2 with
    | dir => cases b <;> simp [h]
    | file c => exact h

theorem mkdir_preserves_root (root p : FsPath) (b : Bool) (fs : FS)
    (h : fs root = some .dir) : (mkdir fs p b).1 root = some .dir := by
  unfold mkdir
  rcases ha : mkdirAux fs (properPrefixes p) with ⟨fs1, e⟩
  have h1 : fs1 root = some .dir := by
    have := mkdirAux_preserves_root root (properPrefixes p) fs h
    rw [ha] at this
    exact this
  cases e with
  | some err => exact h1
  | none => exact mkdirFinal_preserves_root root p b fs1 h1

theorem writeFile_preserves_root (root p : FsPath) (c : String) (hne : p ≠ root)
    (fs : FS) (h : fs root = some .dir) : (writeFile fs p c).1 root = some .dir := by
  have hrp : root ≠ p := fun hx => hne hx.symm
  unfold writeFile
  split
  · cases hp : fs p with
    | none => simp only [hp, fsSet, if_neg hrp]; exact h
    | some e =>
      cases e with
      | dir => simp only [hp]; exact h
      | file c2 => simp only [hp, fsSet, if_neg hrp]; exact h
  · exact h

theorem unlinkIfFile_at_root (root p : FsPath) (hne : p ≠ root) (fs : FS) :
    unlinkIfFile fs p root = fs root := by
  have hrp : root ≠ p := fun hx => hne hx.symm
  unfold unlinkIfFile
  split
  · simp only [fsRemove, if_neg hrp]
  · rfl

theorem prepDir_preserves_root (root : FsPath) (sub : List String)
    (hne : root ++ sub ≠ root)
    (fs : FS) (h : fs root = some .dir) : (prepDir root sub fs).1 root = some .dir := by
  unfold prepDir
  apply mkdir_preserves_root
  rw [unlinkIfFile_at_root root _ hne]
  exact h

theorem writeStubIfMissing_preserves_root (root : FsPath)
    (fs : FS) (h : fs root = some .dir) :
    (writeStubIfMissing root fs).1 root = some .dir := by
  unfold writeStubIfMissing
  split
  · exact h
  · exact writeFile_preserves_root root _ _ (by simp [indexTsPath]) fs h

theorem fixRealtimeHealthcheck_preserves_root (root : FsPath)
    (fs : FS) (h : fs root = some .dir) :
    (fixRealtimeHealthcheck root fs).1 root = some .dir := by
  unfold fixRealtimeHealthcheck
  cases readFile fs (root ++ ["docker-compose.yml"]) with
  | none => exact h
  | some content =>
    simp only []
    split
    · exact writeFile_preserves_root root _ _ (by simp) fs h
    · exact h

theorem runOps_cons_preserves_root (root : FsPath) (op : FS → FsResult)
    (ops : List (FS → FsResult))
    (hop : ∀ fs, fs root = some .dir → (op fs).1 root = some .dir)
    (hops : ∀ fs, fs root = some .dir → (runOps ops fs).1 root = some .dir) :
    ∀ fs, fs root = some .dir → (runOps (op :: ops) fs).1 root = some .dir := by
  intro fs h
  unfold runOps
  rcases he : op fs with ⟨fs1, e⟩
  have h1 : fs1 root = some .dir := by
    have := hop fs h
    rw [he] at this
    exact this
  cases e with
  | none => exact hops fs1 h1
  | some err => exact h1

/-- `run` never changes the project root entry away from a directory. -/
theorem run_preserves_root (n : String) (tpl : Templates) (root : FsPath) :
    ∀ fs : FS, fs root = some .dir → (run n tpl root fs).1 root = some .dir := by
  simp only [run, runOpList, runSubdirs, List.map_cons, List.map_nil,
    List.cons_append, List.nil_append]
  repeat' apply runOps_cons_preserves_root
  all_goals intro fs h
  all_goals first
    | exact prepDir_preserves_root _ _ (by simp) fs h
    | exact writeStubIfMissing_preserves_root _ fs h
    | exact writeFile_preserves_root _ _ _ (by simp) fs h
    | exact fixRealtimeHealthcheck_preserves_root _ fs h
    | exact h

theorem generate_alreadyExists (n : String) (tpl : Templates) (root : FsPath) (fs : FS)
    (h : (fs root).isSome) : generate n tpl root fs = (fs, some .alreadyExists) := by
  unfold generate createProjectDirectory
  rw [if_pos h]

theorem mkdir_sets_dir (fs : FS) (p : FsPath) (fs' : FS)
    (h : mkdir fs p false = (fs', none)) : fs' p = some .dir := by
  unfold mkdir at h
  rcases ha : mkdirAux fs (properPrefixes p) with ⟨fs1, e⟩
  rw [ha] at h
  cases e with
  | some err => exact absurd (congrArg Prod.snd h) (by simp)
  | none =>
    replace h : mkdirFinal fs1 p false = (fs', none) := h
    unfold mkdirFinal at h
    cases hp : fs1 p with
    | none =>
      rw [hp] at h
      have hfst := congrArg Prod.fst h
      simp only at hfst
      rw [← hfst]
      simp [fsSet]
    | some e2 =>
      rw [hp] at h
      cases e2 with
      | dir => exact absurd (congrArg Prod.snd h) (by simp)
      | file c => exact absurd (congrArg Prod.snd h) (by simp)
theorem createProjectDirectory_success (fs : FS) (root : FsPath) (fs' : FS)
    (h : createProjectDirectory fs root = (fs', none)) : fs' root = some .dir := by
  unfold createProjectDirectory at h
  split at h
  · exact absurd (congrArg Prod.snd h) (by simp)
  · exact mkdir_sets_dir fs root fs' h



/-- C7: if the target project directory already exists (as a directory or
a file), generation fails with the `AlreadyExists` precondition error and
the filesystem is returned unchanged (the check precedes any creation);
and a second invocation against a path where generation just succeeded
always fails with the same precondition error, overwriting nothing. -/
theorem generate_precondition_and_idempotent_failure :
    (∀ (n : String) (tpl : Templates) (root : FsPath) (fs : FS),
        (fs root).isSome → generate n tpl root fs = (fs, some .alreadyExists))
    ∧ (∀ (n : String) (tpl : Templates) (root : FsPath) (fs fs' : FS),
        generate n tpl root fs = (fs', none) →
        generate n tpl root fs' = (fs', some .alreadyExists)) := by
  constructor
  · intro n tpl root fs h
    exact generate_alreadyExists n tpl root fs h
  · intro n tpl root fs fs' h
    unfold generate at h
    rcases hc : createProjectDirectory fs root with ⟨fs1, e⟩
    rw [hc] at h
    cases e with
    | some err => exact absurd (congrArg Prod.snd h) (by simp)
    | none =>
      have hroot1 : fs1 root = some .dir := createProjectDirectory_success fs root fs1 hc
      have hrun : (run n tpl root fs1).1 root = some .dir :=
        run_preserves_root n tpl root fs1 hroot1
      have hfs' : fs' root = some .dir := by
        replace h : run n tpl root fs1 = (fs', none) := h
        rw [h] at hrun
        exact hrun
      exact generate_alreadyExists n tpl root fs' (by simp [hfs'])

/-- Witness for `generate_precondition_and_idempotent_failure`: a second
generation against the state produced by a successful first generation
fails with `AlreadyExists`. -/
theorem generate_twice_witness :
    generate "proj" plainTemplates ["proj"]
        ((generate "proj" plainTemplates ["proj"] fsEmpty).1)
      = ((generate "proj" plainTemplates ["proj"] fsEmpty).1, some .alreadyExists) :=
  generate_precondition_and_idempotent_failure.2 "proj" plainTemplates ["proj"] fsEmpty _
    (by
      have h2 : (generate "proj" plainTemplates ["proj"] fsEmpty).2 = none := by decide
      rw [← h2])

set_option maxRecDepth 10000 in
/-- C5 (counterexample): with `volumes/functions/main/index.ts` pre-seeded
with content `"SEEDED"`, `run` leaves the guarded stub write alone but its
later unconditional write replaces the file with the default function
template, so the pre-seeded content does not survive the run. -/
theorem index_ts_overwritten_counterexample :
    (run "proj" plainTemplates ["proj"] (seededFs ["proj"] "SEEDED")).1 (indexTsPath ["proj"])
        = some (.file functionMainTemplate)
      ∧ functionMainTemplate ≠ "SEEDED" := by
  constructor
  · decide
  · decide

set_option maxRecDepth 100000 in
set_option maxHeartbeats 4000000 in
/-- C5 (amended): the stub write is guarded (it writes only when
`index.ts` is absent), but `run` later writes `templates["function_main"]`
to the same path unconditionally: whatever content `index.ts` was
pre-seeded with, the run succeeds and `index.ts` ends up holding the
default function template. -/
theorem index_ts_always_overwritten (seeded : String) :
    (run "proj" plainTemplates ["proj"] (seededFs ["proj"] seeded)).2 = none
    ∧ (run "proj" plainTemplates ["proj"] (seededFs ["proj"] seeded)).1 (indexTsPath ["proj"])
      = some (.file functionMainTemplate) := by
  constructor
  · rfl
  · rfl

set_option maxRecDepth 10000 in
/-- C8 (counterexample): a conflicting regular file at the intermediate
segment `volumes` (below an absent project root, and likewise below a
just-created root) makes materialization fail with `NotADirectoryError`
rather than succeed: only the leaf paths of the subdirectory list are
cleared, never intermediate segments. -/
theorem subdir_conflict_counterexample :
    (generate "proj" plainTemplates ["proj"] (midConflictFs ["proj"])).2
        = some .notADirectory
      ∧ (run "proj" plainTemplates ["proj"] (midConflictFsWithRoot ["proj"])).2
        = some .notADirectory := by
  constructor
  · decide
  · decide

set_option maxRecDepth 10000 in
set_option maxHeartbeats 6000000 in
/-- C8 (amended): conflicting regular files at the subdirectory-list
paths `volumes/api`, `volumes/db/data`, `volumes/logs`, `volumes/pooler`,
`volumes/storage`, `volumes/analytics` and at `volumes/functions/main`
(first conjunct, all at once), and at `volumes/functions` (second
conjunct), are removed and replaced by directories with the run
succeeding.  A conflicting file at `volumes/db` is not recovered even
though `volumes/db` is in the subdirectory list: `volumes/db/data` is
processed earlier and its `mkdir(parents=True)` hits the file ancestor,
so the run fails with `NotADirectoryError` (third conjunct).  Generation
fails outright with the `AlreadyExists` precondition error whenever the
project root itself already exists, as a directory or as a file (fourth
conjunct). -/
theorem leaf_conflicts_replaced_and_root_precondition :
    ((run "proj" plainTemplates ["proj"] (leafConflictFs ["proj"])).2 = none
      ∧ (∀ sub ∈ runSubdirs,
          (run "proj" plainTemplates ["proj"] (leafConflictFs ["proj"])).1 (["proj"] ++ sub)
            = some .dir)
      ∧ (run "proj" plainTemplates ["proj"] (leafConflictFs ["proj"])).1
          (["proj", "volumes", "functions", "main"]) = some .dir)
    ∧ ((run "proj" plainTemplates ["proj"] (funcConflictFs ["proj"])).2 = none
      ∧ (run "proj" plainTemplates ["proj"] (funcConflictFs ["proj"])).1
          (["proj", "volumes", "functions"]) = some .dir
      ∧ (run "proj" plainTemplates ["proj"] (funcConflictFs ["proj"])).1
          (["proj", "volumes", "functions", "main"]) = some .dir)
    ∧ (run "proj" plainTemplates ["proj"] (dbConflictFs ["proj"])).2 = some .notADirectory
    ∧ (∀ (n : String) (tpl : Templates) (root : FsPath) (fs : FS),
        (fs root).isSome → generate n tpl root fs = (fs, some .alreadyExists)) := by
  refine ⟨⟨by decide, by decide, by decide⟩, ⟨by decide, by decide, by decide⟩,
    by decide, ?_⟩
  intro n tpl root fs h
  exact generate_alreadyExists n tpl root fs h

/-- Witness for `leaf_conflicts_replaced_and_root_precondition`: the
precondition conjunct applied to a state where the root exists. -/
theorem leaf_conflicts_witness :
    generate "proj" plainTemplates ["proj"] rootOnlyFs
      = (rootOnlyFs, some .alreadyExists) :=
  leaf_conflicts_replaced_and_root_precondition.2.2.2 "proj" plainTemplates ["proj"]
    rootOnlyFs (by decide)


end SupabaseSetup
